import Mathlib

/-!
Shallow embedding of the payment-processor adapter layer of the `ecommerce`
repository (`src/ecommerce/extensions/payment/processors/adyen/processor.py`
and `src/ecommerce/extensions/payment/processors/paypal.py`), together with
theorems settling the frozen claims about it.

Conventions of the embedding:
* JSON-ish gateway payloads are finite maps from string keys to string
  values (`Dict`); Python `d[k]` raising `KeyError` on a missing key is an
  explicit error outcome, `d.get(k)` is `Option`-valued lookup.
* Monetary amounts (`Decimal` in the source) are rationals (`Rat`).
* A Python function that can raise returns `Except`; the set of audit
  records written by a call (`record_processor_response`) is returned
  alongside the result, in the order the records were written.
* Database side effects (created payment events, source mutation, refund
  transitions) are returned as explicit data in the success value; an
  error outcome carries no mutation, matching the source where every
  raise happens before any ledger write of that call path.
-/

/-- A JSON-ish gateway payload: association list from string keys to
string values. -/
abbrev Dict := List (String × String)

/-- Python `d.get(k)` / `d[k]` lookup (first binding wins). -/
def dictGet (d : Dict) (k : String) : Option String :=
  (d.find? (fun p => p.1 == k)).map (fun p => p.2)

/-- Python truthiness of `d.get(k)`: the key is present and its value is a
non-empty string (`None` and `''` are falsy). -/
def dictTruthy (d : Dict) (k : String) : Bool :=
  match dictGet d k with
  | some v => v != ""
  | none => false

/-- Python `str.lower()`, character-wise (the payload fields compared in
the source are ASCII). Structural recursion over the character list so
concrete inputs evaluate in the kernel. -/
def pyLower (s : String) : String := ⟨s.data.map Char.toLower⟩

/-- Modelled from the spec: `PaymentEventTypeName.PAID` lives in
`ecommerce.extensions.order.constants`, which is not under `src/`; the spec
only needs it as a distinguished event-type name. -/
def PaymentEventTypeName.PAID : String := "Paid"

/-- Modelled from the spec: `PaymentEventTypeName.REFUNDED`, as above. -/
def PaymentEventTypeName.REFUNDED : String := "Refunded"

/-- Modelled from the spec: refund status names from
`ecommerce.extensions.refund.status.REFUND` (not under `src/`); the spec
lists the states, only their distinctness matters here. -/
def REFUND.PENDING_WITH_REVOCATION : String := "Pending With Revocation"

/-- Modelled from the spec: see `REFUND.PENDING_WITH_REVOCATION`. -/
def REFUND.PENDING_WITHOUT_REVOCATION : String := "Pending Without Revocation"

/-- Modelled from the spec: see `REFUND.PENDING_WITH_REVOCATION`. -/
def REFUND.PAYMENT_REFUNDED : String := "Payment Refunded"

/-- Ledger entity: oscar `Source` as constructed/mutated by the processors
(processor.py lines 180-184): running balance for one order/processor. -/
structure Source where
  source_type : String
  currency : String
  amount_allocated : Rat
  amount_debited : Rat
  amount_refunded : Rat
  reference : String
deriving Repr, DecidableEq

/-- Ledger entity: `PaymentEvent` as constructed by the processors
(processor.py lines 188 and 204-210). `order_number` is `some` when the
source passes `order=` (the cancel-or-refund handler does, the
authorisation handler does not). -/
structure PaymentEvent where
  event_type : String
  amount : Rat
  reference : String
  processor_name : String
  order_number : Option String
deriving Repr, DecidableEq

/-- Modelled from the spec: oscar `Source.refund(amount, reference)` is an
external collaborator; per the spec the credit amount is applied to the
source, i.e. `amount_refunded` grows by the credited amount. -/
def Source.refund (s : Source) (amount : Rat) : Source :=
  { s with amount_refunded := s.amount_refunded + amount }

/-- External collaborator entity `Refund` as read by the cancel-or-refund
handler: only its status and credit total are consulted. -/
structure Refund where
  status : String
  total_credit_excl_tax : Rat
deriving Repr, DecidableEq

/-- Order as read during reconciliation: `order.number`, `order.sources`
(first element used), `order.refunds`. -/
structure Order where
  number : String
  sources : List Source
  refunds : List Refund
deriving Repr, DecidableEq

/-- Basket as read by the Adyen processor: totals plus `basket.order_set`
(first element used during reconciliation). -/
structure Basket where
  order_number : String
  currency : String
  total_incl_tax : Rat
  order_set : List Order
deriving Repr, DecidableEq

/-- Python-level exceptions that can escape the Adyen handler bodies;
`handle_processor_response` converts the first two (processor.py lines
142-145), the rest propagate. -/
inductive PyExc where
  | keyError
  | attributeError
  | transactionDeclined
  | gatewayError (msg : String)
  | doesNotExist
  | multipleObjectsReturned
deriving Repr, DecidableEq

/-- Errors surfaced by the Adyen adapter to its callers. -/
inductive AdyenError where
  | missingAdyenEventCode
  | unsupportedAdyenEvent
  | transactionDeclined
  | gatewayError (msg : String)
  | keyError
  | doesNotExist
  | multipleObjectsReturned
deriving Repr, DecidableEq

/-- One audit record written through `record_processor_response`: the raw
response payload plus the transaction id it was keyed by. -/
structure AdyenAudit where
  response : Dict
  transaction_id : String
deriving Repr, DecidableEq

/-- The mutations applied by a successful cancel-or-refund notification
(processor.py lines 198-210): the source after `source.refund`, the status
passed to `refund.set_status`, the flag passed to `refund.complete`, and
the persisted REFUNDED payment event. -/
structure CancelRefundOutcome where
  source : Source
  refund_status_set : String
  complete_called_with : Bool
  created_event : PaymentEvent
deriving Repr, DecidableEq

/-- Result of a successfully dispatched Adyen notification. -/
inductive HandleOk where
  | authorised (source : Source) (event : PaymentEvent)
  | cancelOrRefund (outcome : CancelRefundOutcome)
deriving Repr, DecidableEq

/-- Django `queryset.get(status__in=[pending-with, pending-without])` on
`order.refunds` (processor.py line 196): exactly one match or an ORM
exception. -/
def refundsGetPending (refunds : List Refund) : Except PyExc Refund :=
  match refunds.filter (fun r =>
      r.status == REFUND.PENDING_WITH_REVOCATION ||
      r.status == REFUND.PENDING_WITHOUT_REVOCATION) with
  | [] => .error .doesNotExist
  | [r] => .ok r
  | _ => .error .multipleObjectsReturned

/-- `Adyen._handle_authorisation` (processor.py lines 147-190). A missing
`resultCode` key raises `KeyError`; a result code other than
`authorised` (lower-cased) raises `TransactionDeclined`; a `None` basket
raises `AttributeError` at `basket.currency`; otherwise one fully
allocated and debited `Source` and one PAID `PaymentEvent` are returned
(unsaved, for the caller to persist). -/
def Adyen.handleAuthorisation (psp_reference : String) (response : Dict)
    (basket : Option Basket) : Except PyExc HandleOk :=
  match dictGet response "resultCode" with
  | none => .error .keyError
  | some raw_result_code =>
    let result_code := pyLower raw_result_code
    if result_code = "authorised" then
      match basket with
      | none => .error .attributeError
      | some b =>
        let total := b.total_incl_tax
        let source : Source :=
          { source_type := "adyen"
            currency := b.currency
            amount_allocated := total
            amount_debited := total
            amount_refunded := 0
            reference := psp_reference }
        let event : PaymentEvent :=
          { event_type := PaymentEventTypeName.PAID
            amount := total
            reference := psp_reference
            processor_name := "adyen"
            order_number := none }
        .ok (.authorised source event)
    else
      .error .transactionDeclined

/-- `Adyen._handle_cancel_or_refund` (processor.py lines 192-216). Reads
the basket's first order, the order's first source and its unique pending
refund; on a truthy `success` field applies the credit to the source,
sets the refund to PAYMENT_REFUNDED, completes it with revocation exactly
when the prior status was PENDING_WITH_REVOCATION, and persists one
REFUNDED event; otherwise raises `GatewayError`. A `None` basket, order
or source raises `AttributeError` where the source dereferences it. -/
def Adyen.handleCancelOrRefund (psp_reference : String) (response : Dict)
    (basket : Option Basket) : Except PyExc HandleOk :=
  match basket with
  | none => .error .attributeError
  | some b =>
    match b.order_set.head? with
    | none => .error .attributeError
    | some order =>
      match refundsGetPending order.refunds with
      | .error e => .error e
      | .ok refund =>
        let amount := refund.total_credit_excl_tax
        if dictTruthy response "success" then
          match order.sources.head? with
          | none => .error .attributeError
          | some source =>
            let source := source.refund amount
            let revoke_fulfillment := refund.status == REFUND.PENDING_WITH_REVOCATION
            let event : PaymentEvent :=
              { event_type := PaymentEventTypeName.REFUNDED
                amount := amount
                reference := psp_reference
                processor_name := "adyen"
                order_number := some order.number }
            .ok (.cancelOrRefund
              { source := source
                refund_status_set := REFUND.PAYMENT_REFUNDED
                complete_called_with := revoke_fulfillment
                created_event := event })
        else
          .error (.gatewayError
            ("Failed to issue Adyen credit for order [" ++ order.number ++ "]."))

/-- The `getattr(self, handler-named-after-lower-cased-event-code)` call of
`handle_processor_response` (processor.py line 141): the class defines
exactly the handlers `_handle_authorisation` and
`_handle_cancel_or_refund`; any other code makes `getattr` raise
`AttributeError`. -/
def Adyen.dispatch (event_code psp_reference : String) (response : Dict)
    (basket : Option Basket) : Except PyExc HandleOk :=
  if pyLower event_code = "authorisation" then
    Adyen.handleAuthorisation psp_reference response basket
  else if pyLower event_code = "cancel_or_refund" then
    Adyen.handleCancelOrRefund psp_reference response basket
  else
    .error .attributeError

/-- `Adyen.handle_processor_response` (processor.py lines 117-145): reads
`eventCode` then `pspReference` (each missing key raises `KeyError`,
converted to `MissingAdyenEventCodeException`), dispatches via
`getattr(self, handler-named-after-lower-cased-code)` — the class defines
exactly the handlers for `authorisation` and `cancel_or_refund`, any other
code raises `AttributeError`, converted to
`UnsupportedAdyenEventException`. `KeyError`/`AttributeError` escaping a
handler body is converted the same way; other exceptions propagate.
`record_processor_response` is never invoked on any path of this function
or its handlers, so the audit trace (second component) is always empty. -/
def Adyen.handle_processor_response (response : Dict) (basket : Option Basket) :
    Except AdyenError HandleOk × List AdyenAudit :=
  match dictGet response "eventCode" with
  | none => (.error .missingAdyenEventCode, [])
  | some event_code =>
    match dictGet response "pspReference" with
    | none => (.error .missingAdyenEventCode, [])
    | some psp_reference =>
      match Adyen.dispatch event_code psp_reference response basket with
      | .ok r => (.ok r, [])
      | .error .keyError => (.error .missingAdyenEventCode, [])
      | .error .attributeError => (.error .unsupportedAdyenEvent, [])
      | .error .transactionDeclined => (.error .transactionDeclined, [])
      | .error (.gatewayError m) => (.error (.gatewayError m), [])
      | .error .doesNotExist => (.error .doesNotExist, [])
      | .error .multipleObjectsReturned => (.error .multipleObjectsReturned, [])

/-- The value `issue_credit` hands back: PayPal returns the refund
transaction id, the Adyen implementation returns the literal `False`. -/
inductive CreditResult where
  | transactionId (id : String)
  | boolFalse
deriving Repr, DecidableEq

/-- The exact message both `GatewayError` raises in `Adyen.issue_credit`
carry (processor.py lines 248-252). -/
def adyenCreditErrorMsg (order_number : String) : String :=
  "An error occurred while attempting to issue a credit (via Adyen) for order [" ++
    order_number ++ "]."

/-- `Adyen.issue_credit` (processor.py lines 218-254), with the HTTP
interaction abstracted as the status flag (`status_ok` =
`status_code == requests.codes.ok`) and the parsed response body. On OK
status the body is recorded to the audit log keyed by its `pspReference`
(a missing key raises `KeyError` before the record is written, uncaught);
then a body `response` field differing from `[cancelOrRefund-received]`
raises `GatewayError`, else the function returns `False`. A non-OK status
raises `GatewayError` with nothing recorded. -/
def Adyen.issue_credit (status_ok : Bool) (body : Dict) (order_number : String) :
    Except AdyenError CreditResult × List AdyenAudit :=
  if status_ok then
    match dictGet body "pspReference" with
    | none => (.error .keyError, [])
    | some psp =>
      let audits : List AdyenAudit := [{ response := body, transaction_id := psp }]
      match dictGet body "response" with
      | none => (.error .keyError, audits)
      | some r =>
        if r = "[cancelOrRefund-received]" then
          (.ok .boolFalse, audits)
        else
          (.error (.gatewayError (adyenCreditErrorMsg order_number)), audits)
  else
    (.error (.gatewayError (adyenCreditErrorMsg order_number)), [])

/-- A link in a PayPal payment's `links` list. -/
structure PaypalLink where
  rel : String
  href : String
deriving Repr, DecidableEq

/-- A created PayPal payment as consulted after the create loop:
`payment.id` and `payment.links` (its serialized dict is identified with
the payment itself in audit records). -/
structure PaypalPayment where
  id : String
  links : List PaypalLink
deriving Repr, DecidableEq

/-- A PayPal error payload (`payment.error` / `refund.error`); only its
`debug_id` is consulted, as audit transaction id. -/
structure PaypalErrorPayload where
  debug_id : String
deriving Repr, DecidableEq

/-- Outcome of one `payment.create()` attempt in the create loop:
the call returns with `payment.success()` true, returns with it false
(leaving `payment.error` set), or raises. -/
inductive CreateAttemptOutcome where
  | success (payment : PaypalPayment)
  | unsuccessful (error : PaypalErrorPayload)
  | raisedException
deriving Repr, DecidableEq

/-- One audit record written by the PayPal processor, tagged by which raw
payload was passed to `record_processor_response`, with the transaction
id it was keyed by. -/
inductive PaypalAudit where
  | errorPayload (e : PaypalErrorPayload) (transaction_id : String)
  | paymentPayload (p : PaypalPayment) (transaction_id : String)
  | refundPayload (refund_id : String) (transaction_id : String)
deriving Repr, DecidableEq

/-- Errors escaping the PayPal processor methods. `gatewayErrorPayload`
is `raise GatewayError(error)` with the error payload;
`gatewayErrorMsg` carries the formatted message; `uncaughtException` is
the bare `raise` re-raising the attempt's exception;
`unboundLocalError` is Python reading the local `payment` when the loop
body never assigned it. -/
inductive PaypalError where
  | gatewayErrorPayload (e : PaypalErrorPayload)
  | gatewayErrorMsg (msg : String)
  | uncaughtException
  | unboundLocalError
deriving Repr, DecidableEq

/-- The loop body of `Paypal.get_transaction_parameters` (paypal.py lines
125-169) over the remaining indices of `range(1, available_attempts + 1)`.
A successful create breaks with the payment; an unsuccessful or raising
attempt retries while `i < available_attempts` (writing no audit record,
only a log warning); on the last attempt an unsuccessful create records
the error payload keyed by its `debug_id` and raises
`GatewayError(error)`, and a raising attempt re-raises. `ok none` means
the range was exhausted without the body ever binding `payment`. -/
def Paypal.createLoop (gateway : Nat → CreateAttemptOutcome)
    (available_attempts : Nat) :
    List Nat → Except PaypalError (Option PaypalPayment) × List PaypalAudit
  | [] => (.ok none, [])
  | i :: rest =>
    match gateway i with
    | .success p => (.ok (some p), [])
    | .unsuccessful e =>
      if i < available_attempts then
        Paypal.createLoop gateway available_attempts rest
      else
        (.error (.gatewayErrorPayload e), [.errorPayload e e.debug_id])
    | .raisedException =>
      if i < available_attempts then
        Paypal.createLoop gateway available_attempts rest
      else
        (.error .uncaughtException, [])

/-- `Paypal.get_transaction_parameters` (paypal.py lines 64-191), with the
gateway abstracted as the per-attempt outcome function. The attempt budget
is `retry_attempts` when the `PAYPAL_RETRY_ATTEMPTS` switch is active,
else 1 (lines 121-123). After the loop the (successful) payment is
recorded to the audit log keyed by `payment.id`; a loop exhausted without
any attempt leaves `payment` unbound, so `payment.to_dict()` raises
`UnboundLocalError`. The first link with rel `approval_url` supplies the
returned `payment_page_url`; a missing approval link raises
`GatewayError` (message truncated here before the audit-entry id, which
the embedding does not number). -/
def Paypal.get_transaction_parameters (switch_active : Bool)
    (retry_attempts : Nat) (gateway : Nat → CreateAttemptOutcome) :
    Except PaypalError String × List PaypalAudit :=
  let available_attempts := if switch_active then retry_attempts else 1
  match Paypal.createLoop gateway available_attempts
      (List.range' 1 available_attempts) with
  | (.error e, audits) => (.error e, audits)
  | (.ok none, audits) => (.error .unboundLocalError, audits)
  | (.ok (some payment), audits) =>
    let audits := audits ++ [.paymentPayload payment payment.id]
    match payment.links.find? (fun l => l.rel == "approval_url") with
    | some link => (.ok link.href, audits)
    | none =>
      (.error (.gatewayErrorMsg
        "Approval URL missing from PayPal payment response."), audits)

/-- A sale resource attached to a PayPal transaction; related resources
without a `sale` attribute are `none`. -/
structure PaypalSale where
  id : String
deriving Repr, DecidableEq

/-- One transaction of a found PayPal payment: its related resources,
each possibly carrying a sale. -/
structure PaypalTransaction where
  related_resources : List (Option PaypalSale)
deriving Repr, DecidableEq

/-- A payment located via `Payment.find` during credit issuance. -/
structure PaypalFoundPayment where
  id : String
  transactions : List PaypalTransaction
deriving Repr, DecidableEq

/-- `Paypal._get_payment_sale` (paypal.py lines 281-295): the first sale
found across the payment's transactions' related resources, else
`None`. -/
def Paypal.getPaymentSale (payment : PaypalFoundPayment) : Option PaypalSale :=
  ((payment.transactions.map (fun t => t.related_resources)).flatten).findSome? id

/-- Outcome of `sale.refund(...)`: returns with `refund.success()` true
(carrying `refund.id`), returns with it false (carrying `refund.error`),
or raises. -/
inductive RefundCallOutcome where
  | success (refund_id : String)
  | unsuccessful (error : PaypalErrorPayload)
  | raisedException
deriving Repr, DecidableEq

/-- The message of the `GatewayError` raised by `Paypal.issue_credit`'s
bare-except clause (paypal.py lines 312-316). -/
def paypalCreditErrorMsg (order_number : String) : String :=
  "An error occurred while attempting to issue a credit (via PayPal) for order [" ++
    order_number ++ "]."

/-- `Paypal.issue_credit` (paypal.py lines 297-330), with the gateway
abstracted as the found payment (`none` when `Payment.find` raises) and
the refund-call outcome. A raising find, a `None` sale (whose
dereference raises) or a raising refund call is caught by the bare
except and re-raised as `GatewayError` with the order message. Outside
the try, a successful refund is recorded keyed by `refund.id` and that
id returned; an unsuccessful one records the error payload keyed by its
`debug_id` and raises `GatewayError` (message truncated here before the
audit-entry id, which the embedding does not number). -/
def Paypal.issue_credit (findResult : Option PaypalFoundPayment)
    (refundCall : RefundCallOutcome) (order_number : String) :
    Except PaypalError CreditResult × List PaypalAudit :=
  match findResult with
  | none => (.error (.gatewayErrorMsg (paypalCreditErrorMsg order_number)), [])
  | some payment =>
    match Paypal.getPaymentSale payment with
    | none => (.error (.gatewayErrorMsg (paypalCreditErrorMsg order_number)), [])
    | some sale =>
      match refundCall with
      | .raisedException =>
        (.error (.gatewayErrorMsg (paypalCreditErrorMsg order_number)), [])
      | .success refund_id =>
        (.ok (.transactionId refund_id), [.refundPayload refund_id refund_id])
      | .unsuccessful e =>
        (.error (.gatewayErrorMsg
          ("Failed to refund PayPal payment [" ++ sale.id ++ "].")),
          [.errorPayload e e.debug_id])

/-- The billing-address block built by `_get_shopper_billing_address`:
either the empty mapping or a mapping with the single key
`billingAddress` bound to the inner address dict. -/
inductive BillingResult where
  | empty
  | billingAddress (address : Dict)
deriving Repr, DecidableEq

/-- Python `billing_address.split(' ', 1)` unpacked into two names:
`none` models the `ValueError` when the string has no space (the split
yields a single chunk), otherwise the chunk before the first space and
the remainder. -/
def splitFirstSpace : List Char → Option (List Char × List Char)
  | [] => none
  | c :: cs =>
    if c = ' ' then some ([], cs)
    else
      match splitFirstSpace cs with
      | some (front, back) => some (c :: front, back)
      | none => none

/-- See `splitFirstSpace`: the chunk before the first space and the
remainder, lifted to strings. -/
def splitHouseStreet (s : String) : Option (String × String) :=
  (splitFirstSpace s.data).map (fun p => (⟨p.1⟩, ⟨p.2⟩))

/-- `_get_shopper_billing_address` (processor.py lines 285-304): with all
five fields empty returns the empty mapping; otherwise starts an inner
address dict, and if `billing_address` is non-empty splits it into house
number and street — a failing split makes the whole builder return the
empty mapping, discarding every other field; then the non-empty
city/state/postal-code/country fields are appended in source order. -/
def _get_shopper_billing_address (billing_address city state postal_code country : String) :
    BillingResult :=
  if billing_address ≠ "" ∨ city ≠ "" ∨ state ≠ "" ∨ postal_code ≠ "" ∨ country ≠ "" then
    let base : Option Dict :=
      if billing_address ≠ "" then
        match splitHouseStreet billing_address with
        | some (house_number, street) =>
          some [("houseNumberOrName", house_number), ("street", street)]
        | none => none
      else
        some []
    match base with
    | none => .empty
    | some address =>
      let address := address ++ (if city ≠ "" then [("city", city)] else [])
      let address := address ++ (if state ≠ "" then [("stateOrProvince", state)] else [])
      let address := address ++ (if postal_code ≠ "" then [("postalCode", postal_code)] else [])
      let address := address ++ (if country ≠ "" then [("country", country)] else [])
      .billingAddress address
  else
    .empty

/-! Theorems settling the claims, with the concrete fixtures their
witnesses and counterexamples evaluate on. -/

/-- A well-formed authorised Adyen authorisation response. -/
def authOkResponse : Dict :=
  [("eventCode", "AUTHORISATION"),
   ("pspReference", "8814950255662100"),
   ("resultCode", "Authorised")]

/-- A declined Adyen authorisation response. -/
def authRefusedResponse : Dict :=
  [("eventCode", "AUTHORISATION"),
   ("pspReference", "8814950255662101"),
   ("resultCode", "Refused")]

/-- A small basket fixture. -/
def demoBasket : Basket :=
  { order_number := "EDX-100001"
    currency := "USD"
    total_incl_tax := 49
    order_set := [] }

/-- C1: for every authorisation response (event code `AUTHORISATION` up to
case, `pspReference` present) whose `resultCode` is `authorised` under
case-insensitive comparison, `handle_processor_response` returns a Source
with `amount_allocated = amount_debited = basket.total_incl_tax` and
`reference` the response's `pspReference`, together with a PAID
PaymentEvent of the same amount and reference. -/
theorem c1_authorised_creates_paid_source_and_event
    (response : Dict) (b : Basket) (ec psp rc : String)
    (hec : dictGet response "eventCode" = some ec)
    (hecl : pyLower ec = "authorisation")
    (hpsp : dictGet response "pspReference" = some psp)
    (hrc : dictGet response "resultCode" = some rc)
    (hrcl : pyLower rc = "authorised") :
    Adyen.handle_processor_response response (some b) =
      (.ok (.authorised
        { source_type := "adyen"
          currency := b.currency
          amount_allocated := b.total_incl_tax
          amount_debited := b.total_incl_tax
          amount_refunded := 0
          reference := psp }
        { event_type := PaymentEventTypeName.PAID
          amount := b.total_incl_tax
          reference := psp
          processor_name := "adyen"
          order_number := none }), []) := by
  simp [Adyen.handle_processor_response, Adyen.dispatch, Adyen.handleAuthorisation,
    hec, hecl, hpsp, hrc, hrcl]

/-- C1 witness: the theorem evaluated on the concrete authorised response
and the demo basket. -/
theorem c1_witness :
    Adyen.handle_processor_response authOkResponse (some demoBasket) =
      (.ok (.authorised
        { source_type := "adyen"
          currency := "USD"
          amount_allocated := 49
          amount_debited := 49
          amount_refunded := 0
          reference := "8814950255662100" }
        { event_type := PaymentEventTypeName.PAID
          amount := 49
          reference := "8814950255662100"
          processor_name := "adyen"
          order_number := none }), []) :=
  c1_authorised_creates_paid_source_and_event authOkResponse demoBasket
    "AUTHORISATION" "8814950255662100" "Authorised" rfl (by decide) rfl rfl (by decide)

/-- C5: for every authorisation response (event code `AUTHORISATION` up to
case, `pspReference` present) whose `resultCode` lower-cases to anything
other than `authorised`, `handle_processor_response` raises
`TransactionDeclined`; the error outcome carries no Source, no
PaymentEvent and writes no audit record (no ledger mutation of any
kind). -/
theorem c5_declined_raises_transaction_declined
    (response : Dict) (basket : Option Basket) (ec psp rc : String)
    (hec : dictGet response "eventCode" = some ec)
    (hecl : pyLower ec = "authorisation")
    (hpsp : dictGet response "pspReference" = some psp)
    (hrc : dictGet response "resultCode" = some rc)
    (hrcl : pyLower rc ≠ "authorised") :
    Adyen.handle_processor_response response basket =
      (.error .transactionDeclined, []) := by
  simp [Adyen.handle_processor_response, Adyen.dispatch, Adyen.handleAuthorisation,
    hec, hecl, hpsp, hrc, hrcl]

/-- C5 witness: the theorem evaluated on the concrete refused response. -/
theorem c5_witness :
    Adyen.handle_processor_response authRefusedResponse (some demoBasket) =
      (.error .transactionDeclined, []) :=
  c5_declined_raises_transaction_declined authRefusedResponse (some demoBasket)
    "AUTHORISATION" "8814950255662101" "Refused" rfl (by decide) rfl rfl (by decide)

/-- A response with an event code no handler is registered for, and no
`pspReference`. -/
def reportAvailableResponse : Dict := [("eventCode", "REPORT_AVAILABLE")]

/-- A response with an unregistered event code and a `pspReference`. -/
def reportAvailableWithPsp : Dict :=
  [("eventCode", "REPORT_AVAILABLE"), ("pspReference", "8814950255662102")]

/-- C6 counterexample: the claim says every response whose event code is
present but unregistered raises `UnsupportedEvent`; but a response with
an unregistered event code and no `pspReference` key raises
`MissingAdyenEventCodeException` instead, because `pspReference` is read
(and its `KeyError` caught) before the handler lookup. -/
theorem c6_counterexample :
    (Adyen.handle_processor_response reportAvailableResponse none).1 =
      .error .missingAdyenEventCode ∧
    AdyenError.missingAdyenEventCode ≠ AdyenError.unsupportedAdyenEvent :=
  ⟨rfl, by decide⟩

/-- C6 (amended): a response missing the `eventCode` key always raises
`MissingAdyenEventCodeException`; a response whose event code and
`pspReference` are both present but whose lower-cased event code has no
registered handler (the class registers exactly `authorisation` and
`cancel_or_refund`) raises `UnsupportedAdyenEventException`. -/
theorem c6_event_dispatch_errors :
    (∀ (response : Dict) (basket : Option Basket),
      dictGet response "eventCode" = none →
      (Adyen.handle_processor_response response basket).1 =
        .error .missingAdyenEventCode) ∧
    (∀ (response : Dict) (basket : Option Basket) (ec psp : String),
      dictGet response "eventCode" = some ec →
      dictGet response "pspReference" = some psp →
      pyLower ec ≠ "authorisation" →
      pyLower ec ≠ "cancel_or_refund" →
      (Adyen.handle_processor_response response basket).1 =
        .error .unsupportedAdyenEvent) := by
  constructor
  · intro response basket h
    simp [Adyen.handle_processor_response, h]
  · intro response basket ec psp hec hpsp h1 h2
    simp [Adyen.handle_processor_response, Adyen.dispatch, hec, hpsp, h1, h2]

/-- C6 witness: the amended theorem evaluated on the empty response (first
conjunct) and on an unregistered event code with a `pspReference` (second
conjunct). -/
theorem c6_witness :
    (Adyen.handle_processor_response ([] : Dict) none).1 =
      .error .missingAdyenEventCode ∧
    (Adyen.handle_processor_response reportAvailableWithPsp none).1 =
      .error .unsupportedAdyenEvent :=
  ⟨c6_event_dispatch_errors.1 [] none rfl,
   c6_event_dispatch_errors.2 reportAvailableWithPsp none
     "REPORT_AVAILABLE" "8814950255662102" rfl rfl (by decide) (by decide)⟩

/-- C2 counterexample: the claim says every failing call path of
`handle_processor_response` records the raw response to the audit log
before or while raising; but the empty response raises
`MissingAdyenEventCodeException` with an empty audit trace — nothing is
recorded. -/
theorem c2_counterexample :
    Adyen.handle_processor_response ([] : Dict) none =
      (.error .missingAdyenEventCode, []) :=
  rfl

/-- C2 (amended): the encrypted-card adapter's `handle_processor_response`
records nothing to the audit log on any call path, success or failure;
its `issue_credit` records the raw response exactly on the OK-status
paths (keyed by the body's `pspReference`), while the non-OK-status path
raises `GatewayError` without recording. -/
theorem c2_audit_recording :
    (∀ (response : Dict) (basket : Option Basket),
      (Adyen.handle_processor_response response basket).2 = []) ∧
    (∀ (body : Dict) (order_number : String),
      (Adyen.issue_credit false body order_number).2 = []) ∧
    (∀ (body : Dict) (order_number psp : String),
      dictGet body "pspReference" = some psp →
      (Adyen.issue_credit true body order_number).2 =
        [{ response := body, transaction_id := psp }]) := by
  refine ⟨?_, ?_, ?_⟩
  · intro response basket
    unfold Adyen.handle_processor_response
    cases hec : dictGet response "eventCode" with
    | none => rfl
    | some ec =>
      cases hpsp : dictGet response "pspReference" with
      | none => rfl
      | some psp =>
        cases hd : Adyen.dispatch ec psp response basket with
        | ok r => simp [hd]
        | error e => cases e <;> simp [hd]
  · intro body order_number
    rfl
  · intro body order_number psp h
    unfold Adyen.issue_credit
    simp only [if_pos trivial, h]
    cases dictGet body "response" with
    | none => rfl
    | some r =>
      by_cases hr : r = "[cancelOrRefund-received]" <;> simp [hr]

/-- C2 witness: the amended theorem evaluated on a concrete OK-status
credit response. -/
theorem c2_witness :
    (Adyen.issue_credit true
        [("pspReference", "8815544088329250"), ("response", "[cancelOrRefund-received]")]
        "EDX-100001").2 =
      [{ response := [("pspReference", "8815544088329250"), ("response", "[cancelOrRefund-received]")],
         transaction_id := "8815544088329250" }] :=
  c2_audit_recording.2.2
    [("pspReference", "8815544088329250"), ("response", "[cancelOrRefund-received]")]
    "EDX-100001" "8815544088329250" rfl

/-- A well-formed cancel-or-refund acknowledgement body. -/
def creditAckBody : Dict :=
  [("pspReference", "8815544088329252"), ("response", "[cancelOrRefund-received]")]

/-- A success-status body whose `response` field is not the expected
acknowledgement string. -/
def creditBadAckBody : Dict :=
  [("pspReference", "8815544088329253"), ("response", "[refund-received]")]

/-- C8 counterexample: the claim says every non-OK status raises
`GatewayError` after recording the raw response to the audit log; but on
a non-OK status `Adyen.issue_credit` raises `GatewayError` with an empty
audit trace — nothing is recorded. -/
theorem c8_counterexample :
    Adyen.issue_credit false creditAckBody "EDX-100002" =
      (.error (.gatewayError (adyenCreditErrorMsg "EDX-100002")), []) :=
  rfl

/-- C8 (amended): an OK status whose body carries a `pspReference` and a
`response` field differing from `[cancelOrRefund-received]` raises
`GatewayError` after recording the raw response; a non-OK status raises
`GatewayError` without recording anything. -/
theorem c8_credit_ack_mismatch_gateway_error :
    (∀ (body : Dict) (order_number psp r : String),
      dictGet body "pspReference" = some psp →
      dictGet body "response" = some r →
      r ≠ "[cancelOrRefund-received]" →
      Adyen.issue_credit true body order_number =
        (.error (.gatewayError (adyenCreditErrorMsg order_number)),
         [{ response := body, transaction_id := psp }])) ∧
    (∀ (body : Dict) (order_number : String),
      Adyen.issue_credit false body order_number =
        (.error (.gatewayError (adyenCreditErrorMsg order_number)), [])) := by
  constructor
  · intro body order_number psp r hpsp hr hne
    simp [Adyen.issue_credit, hpsp, hr, hne]
  · intro body order_number
    rfl

/-- C8 witness: the amended theorem evaluated on the concrete bad-ack body
(first conjunct) and on a non-OK call (second conjunct). -/
theorem c8_witness :
    Adyen.issue_credit true creditBadAckBody "EDX-100003" =
      (.error (.gatewayError (adyenCreditErrorMsg "EDX-100003")),
       [{ response := creditBadAckBody, transaction_id := "8815544088329253" }]) ∧
    Adyen.issue_credit false creditBadAckBody "EDX-100003" =
      (.error (.gatewayError (adyenCreditErrorMsg "EDX-100003")), []) :=
  ⟨c8_credit_ack_mismatch_gateway_error.1 creditBadAckBody "EDX-100003"
      "8815544088329253" "[refund-received]" rfl rfl (by decide),
   c8_credit_ack_mismatch_gateway_error.2 creditBadAckBody "EDX-100003"⟩

/-- C4 counterexample: the claim says a successful `issue_credit` call
returns the transaction id of the refund transaction on every adapter;
but a fully successful Adyen `issue_credit` call (OK status, expected
acknowledgement) returns the literal `False`, not a transaction id. -/
theorem c4_counterexample :
    (Adyen.issue_credit true creditAckBody "EDX-100004").1 = .ok .boolFalse ∧
    CreditResult.boolFalse ≠ CreditResult.transactionId "8815544088329252" :=
  ⟨rfl, by decide⟩

/-- C4 (amended): PayPal's `issue_credit` returns the refund transaction
id on success and raises `GatewayError` on every failure path —
`Payment.find` raising, no sale found on the payment, the refund call
raising, or the refund unsuccessful; the encrypted-card adapter's
`issue_credit` raises `GatewayError` on a non-OK status and on an OK
status whose body's `response` field is not the expected acknowledgement
string, but returns the literal `False` — not a transaction id — on
success; an OK-status body missing its `pspReference` or `response` key
instead escapes as an uncaught `KeyError`. -/
theorem c4_issue_credit_contract :
    (∀ (payment : PaypalFoundPayment) (sale : PaypalSale) (refund_id order_number : String),
      Paypal.getPaymentSale payment = some sale →
      (Paypal.issue_credit (some payment) (.success refund_id) order_number).1 =
        .ok (.transactionId refund_id)) ∧
    (∀ (payment : PaypalFoundPayment) (sale : PaypalSale) (e : PaypalErrorPayload)
        (order_number : String),
      Paypal.getPaymentSale payment = some sale →
      (Paypal.issue_credit (some payment) (.unsuccessful e) order_number).1 =
        .error (.gatewayErrorMsg
          ("Failed to refund PayPal payment [" ++ sale.id ++ "]."))) ∧
    (∀ (refundCall : RefundCallOutcome) (order_number : String),
      (Paypal.issue_credit none refundCall order_number).1 =
        .error (.gatewayErrorMsg (paypalCreditErrorMsg order_number))) ∧
    (∀ (payment : PaypalFoundPayment) (refundCall : RefundCallOutcome)
        (order_number : String),
      Paypal.getPaymentSale payment = none →
      (Paypal.issue_credit (some payment) refundCall order_number).1 =
        .error (.gatewayErrorMsg (paypalCreditErrorMsg order_number))) ∧
    (∀ (payment : PaypalFoundPayment) (sale : PaypalSale) (order_number : String),
      Paypal.getPaymentSale payment = some sale →
      (Paypal.issue_credit (some payment) .raisedException order_number).1 =
        .error (.gatewayErrorMsg (paypalCreditErrorMsg order_number))) ∧
    (∀ (body : Dict) (order_number psp : String),
      dictGet body "pspReference" = some psp →
      dictGet body "response" = some "[cancelOrRefund-received]" →
      (Adyen.issue_credit true body order_number).1 = .ok .boolFalse) ∧
    (∀ (body : Dict) (order_number : String),
      (Adyen.issue_credit false body order_number).1 =
        .error (.gatewayError (adyenCreditErrorMsg order_number))) ∧
    (∀ (body : Dict) (order_number psp r : String),
      dictGet body "pspReference" = some psp →
      dictGet body "response" = some r →
      r ≠ "[cancelOrRefund-received]" →
      (Adyen.issue_credit true body order_number).1 =
        .error (.gatewayError (adyenCreditErrorMsg order_number))) ∧
    (∀ (body : Dict) (order_number : String),
      dictGet body "pspReference" = none →
      (Adyen.issue_credit true body order_number).1 = .error .keyError) ∧
    (∀ (body : Dict) (order_number psp : String),
      dictGet body "pspReference" = some psp →
      dictGet body "response" = none →
      (Adyen.issue_credit true body order_number).1 = .error .keyError) := by
  refine ⟨?_, ?_, ?_, ?_, ?_, ?_, ?_, ?_, ?_, ?_⟩
  · intro payment sale refund_id order_number hsale
    simp [Paypal.issue_credit, hsale]
  · intro payment sale e order_number hsale
    simp [Paypal.issue_credit, hsale]
  · intro refundCall order_number
    rfl
  · intro payment refundCall order_number hsale
    simp [Paypal.issue_credit, hsale]
  · intro payment sale order_number hsale
    simp [Paypal.issue_credit, hsale]
  · intro body order_number psp hpsp hr
    simp [Adyen.issue_credit, hpsp, hr]
  · intro body order_number
    rfl
  · intro body order_number psp r hpsp hr hne
    simp [Adyen.issue_credit, hpsp, hr, hne]
  · intro body order_number hpsp
    simp [Adyen.issue_credit, hpsp]
  · intro body order_number psp hpsp hr
    simp [Adyen.issue_credit, hpsp, hr]

/-- A found PayPal payment whose first transaction's second related
resource carries a sale. -/
def foundPaymentWithSale : PaypalFoundPayment :=
  { id := "PAY-5YK922393D847794YKER7MUI"
    transactions := [{ related_resources := [none, some { id := "36C38912MN9658832" }] }] }

/-- A found PayPal payment none of whose related resources carries a
sale. -/
def foundPaymentNoSale : PaypalFoundPayment :=
  { id := "PAY-0AB000000A000000AAAA0AAA"
    transactions := [{ related_resources := [none] }] }

/-- C4 witness: the amended theorem evaluated on concrete successful,
unsuccessful, no-sale and refund-raising PayPal calls and concrete Adyen
credit calls, including a bad acknowledgement and a missing
`pspReference`. -/
theorem c4_witness :
    (Paypal.issue_credit (some foundPaymentWithSale)
        (.success "5U284073MY634821V") "EDX-100005").1 =
      .ok (.transactionId "5U284073MY634821V") ∧
    (Paypal.issue_credit (some foundPaymentWithSale)
        (.unsuccessful { debug_id := "dbg-77" }) "EDX-100005").1 =
      .error (.gatewayErrorMsg "Failed to refund PayPal payment [36C38912MN9658832].") ∧
    (Paypal.issue_credit (some foundPaymentNoSale)
        (.success "5U284073MY634821V") "EDX-100005").1 =
      .error (.gatewayErrorMsg (paypalCreditErrorMsg "EDX-100005")) ∧
    (Paypal.issue_credit (some foundPaymentWithSale)
        .raisedException "EDX-100005").1 =
      .error (.gatewayErrorMsg (paypalCreditErrorMsg "EDX-100005")) ∧
    (Adyen.issue_credit true creditAckBody "EDX-100005").1 = .ok .boolFalse ∧
    (Adyen.issue_credit false creditAckBody "EDX-100005").1 =
      .error (.gatewayError (adyenCreditErrorMsg "EDX-100005")) ∧
    (Adyen.issue_credit true creditBadAckBody "EDX-100005").1 =
      .error (.gatewayError (adyenCreditErrorMsg "EDX-100005")) ∧
    (Adyen.issue_credit true [("response", "[cancelOrRefund-received]")]
        "EDX-100005").1 = .error .keyError := by
  refine ⟨c4_issue_credit_contract.1 foundPaymentWithSale
      { id := "36C38912MN9658832" } "5U284073MY634821V" "EDX-100005" rfl,
    ?_,
    c4_issue_credit_contract.2.2.2.1 foundPaymentNoSale
      (.success "5U284073MY634821V") "EDX-100005" rfl,
    c4_issue_credit_contract.2.2.2.2.1 foundPaymentWithSale
      { id := "36C38912MN9658832" } "EDX-100005" rfl,
    c4_issue_credit_contract.2.2.2.2.2.1 creditAckBody "EDX-100005"
      "8815544088329252" rfl rfl,
    c4_issue_credit_contract.2.2.2.2.2.2.1 creditAckBody "EDX-100005",
    c4_issue_credit_contract.2.2.2.2.2.2.2.1 creditBadAckBody "EDX-100005"
      "8815544088329253" "[refund-received]" rfl rfl (by decide),
    c4_issue_credit_contract.2.2.2.2.2.2.2.2.1
      [("response", "[cancelOrRefund-received]")] "EDX-100005" rfl⟩
  have h := c4_issue_credit_contract.2.1 foundPaymentWithSale
    { id := "36C38912MN9658832" } { debug_id := "dbg-77" } "EDX-100005" rfl
  simpa using h

/-- C7 (spec-modelled collaborators): for a cancel-or-refund notification
where the basket's order has a first payment source and exactly one
refund in a pending state, a truthy gateway `success` field makes
`_handle_cancel_or_refund` apply the requested credit amount to the
source, set the refund to PAYMENT_REFUNDED, call `complete` with
revocation exactly when the prior status was PENDING_WITH_REVOCATION,
and create one REFUNDED payment event with that amount and the
`pspReference`; a falsy `success` field raises `GatewayError`, producing
no mutation record at all (the refund stays pending). -/
theorem c7_cancel_or_refund_reconciliation
    (psp : String) (response : Dict) (b : Basket) (order : Order)
    (source : Source) (refund : Refund)
    (horder : b.order_set.head? = some order)
    (hsource : order.sources.head? = some source)
    (hrefund : refundsGetPending order.refunds = .ok refund) :
    (dictTruthy response "success" = true →
      Adyen.handleCancelOrRefund psp response (some b) =
        .ok (.cancelOrRefund
          { source := source.refund refund.total_credit_excl_tax
            refund_status_set := REFUND.PAYMENT_REFUNDED
            complete_called_with := (refund.status == REFUND.PENDING_WITH_REVOCATION)
            created_event :=
              { event_type := PaymentEventTypeName.REFUNDED
                amount := refund.total_credit_excl_tax
                reference := psp
                processor_name := "adyen"
                order_number := some order.number } })) ∧
    (dictTruthy response "success" = false →
      Adyen.handleCancelOrRefund psp response (some b) =
        .error (.gatewayError
          ("Failed to issue Adyen credit for order [" ++ order.number ++ "]."))) := by
  constructor <;> intro h <;>
    simp [Adyen.handleCancelOrRefund, horder, hrefund, hsource, h]

/-- A pending-with-revocation refund over 12 units. -/
def pendingRefund : Refund :=
  { status := REFUND.PENDING_WITH_REVOCATION, total_credit_excl_tax := 12 }

/-- The payment source of the demo order, fully debited at 49. -/
def demoSource : Source :=
  { source_type := "adyen"
    currency := "USD"
    amount_allocated := 49
    amount_debited := 49
    amount_refunded := 0
    reference := "8814950255662100" }

/-- An order carrying the demo source and one pending refund. -/
def refundableOrder : Order :=
  { number := "EDX-100006", sources := [demoSource], refunds := [pendingRefund] }

/-- A basket whose order set holds the refundable order. -/
def refundableBasket : Basket :=
  { order_number := "EDX-100006"
    currency := "USD"
    total_incl_tax := 49
    order_set := [refundableOrder] }

/-- C7 witness: the theorem evaluated on the concrete refundable order,
with a truthy-success and a falsy-success notification. -/
theorem c7_witness :
    Adyen.handleCancelOrRefund "8815544088329254" [("success", "true")]
        (some refundableBasket) =
      .ok (.cancelOrRefund
        { source := demoSource.refund 12
          refund_status_set := REFUND.PAYMENT_REFUNDED
          complete_called_with := true
          created_event :=
            { event_type := PaymentEventTypeName.REFUNDED
              amount := 12
              reference := "8815544088329254"
              processor_name := "adyen"
              order_number := some "EDX-100006" } }) ∧
    Adyen.handleCancelOrRefund "8815544088329254" ([] : Dict)
        (some refundableBasket) =
      .error (.gatewayError "Failed to issue Adyen credit for order [EDX-100006].") := by
  constructor
  · have h := (c7_cancel_or_refund_reconciliation "8815544088329254"
      [("success", "true")] refundableBasket refundableOrder demoSource
      pendingRefund rfl rfl rfl).1 rfl
    simpa using h
  · have h := (c7_cancel_or_refund_reconciliation "8815544088329254"
      ([] : Dict) refundableBasket refundableOrder demoSource
      pendingRefund rfl rfl rfl).2 rfl
    simpa using h

/-- The payment returned by the third simulated create attempt, carrying
an approval link. -/
def thirdAttemptPayment : PaypalPayment :=
  { id := "PAY-17S8410768582940NKEE66EQ"
    links := [{ rel := "self", href := "https://api.paypal.example/payment/PAY-17S" },
              { rel := "approval_url",
                href := "https://www.paypal.example/webscr?cmd=_express-checkout&token=EC-60U" }] }

/-- A simulated gateway whose first two create attempts are unsuccessful
and whose third succeeds with `thirdAttemptPayment`. -/
def twoFailsThenSuccess : Nat → CreateAttemptOutcome := fun i =>
  if i ≤ 2 then .unsuccessful { debug_id := "debug-" ++ toString i }
  else .success thirdAttemptPayment

/-- C3 counterexample: the claim says that with a configured retry count
of 3 (switch active), two unsuccessful attempts followed by a success
write exactly 3 audit records; but only one audit record is written (the
successful creation) — failed non-final attempts only emit a log
warning, no audit record. -/
theorem c3_counterexample :
    (Paypal.get_transaction_parameters true 3 twoFailsThenSuccess).2.length = 1 ∧
    (Paypal.get_transaction_parameters true 3 twoFailsThenSuccess).1 =
      .ok "https://www.paypal.example/webscr?cmd=_express-checkout&token=EC-60U" :=
  ⟨rfl, rfl⟩

/-- C3 (amended): with a configured retry count of 3, the retry switch
active, the first two create attempts unsuccessful and the third
successful, exactly one audit record is written — the successful
creation, keyed by the payment id — and the returned parameters carry
the approval URL from the third attempt's link list. -/
theorem c3_retry_then_success_audits_once
    (gateway : Nat → CreateAttemptOutcome) (e₁ e₂ : PaypalErrorPayload)
    (p : PaypalPayment) (link : PaypalLink)
    (h1 : gateway 1 = .unsuccessful e₁)
    (h2 : gateway 2 = .unsuccessful e₂)
    (h3 : gateway 3 = .success p)
    (hlink : p.links.find? (fun l => l.rel == "approval_url") = some link) :
    Paypal.get_transaction_parameters true 3 gateway =
      (.ok link.href, [.paymentPayload p p.id]) := by
  have hrange : List.range' 1 3 = [1, 2, 3] := rfl
  simp [Paypal.get_transaction_parameters, Paypal.createLoop, hrange,
    h1, h2, h3, hlink]

/-- C3 witness: the amended theorem evaluated on the concrete simulated
gateway. -/
theorem c3_witness :
    Paypal.get_transaction_parameters true 3 twoFailsThenSuccess =
      (.ok "https://www.paypal.example/webscr?cmd=_express-checkout&token=EC-60U",
       [.paymentPayload thirdAttemptPayment "PAY-17S8410768582940NKEE66EQ"]) := by
  have h := c3_retry_then_success_audits_once twoFailsThenSuccess
    { debug_id := "debug-1" } { debug_id := "debug-2" } thirdAttemptPayment
    { rel := "approval_url",
      href := "https://www.paypal.example/webscr?cmd=_express-checkout&token=EC-60U" }
    rfl rfl rfl rfl
  simpa using h

/-- C9: with the retry switch active and a configured retry attempt count
of 0, the redirect-wallet create flow executes zero create attempts —
the result is the same for every simulated gateway, which is therefore
never consulted — and fails reading the unbound local `payment`
(an `UnboundLocalError`), not a `GatewayError`, writing no audit record:
the function is not total over all configured retry counts. -/
theorem c9_zero_retries_unbound_local :
    (∀ gateway : Nat → CreateAttemptOutcome,
      Paypal.get_transaction_parameters true 0 gateway =
        (.error .unboundLocalError, [])) ∧
    (∀ msg, PaypalError.unboundLocalError ≠ PaypalError.gatewayErrorMsg msg) ∧
    (∀ e, PaypalError.unboundLocalError ≠ PaypalError.gatewayErrorPayload e) := by
  refine ⟨fun gateway => rfl, ?_, ?_⟩
  · intro msg h
    cases h
  · intro e h
    cases h

/-- C10 counterexample: the claim quantifies over every input whose
`billing_address` contains no space; the empty string contains no space,
yet with a non-empty city the builder returns a non-empty mapping — the
`ValueError` swallowing path only runs when `billing_address` is truthy,
so the other fields are kept, not discarded. -/
theorem c10_counterexample :
    _get_shopper_billing_address "" "Cambridge" "MA" "02139" "US" =
      .billingAddress
        [("city", "Cambridge"), ("stateOrProvince", "MA"),
         ("postalCode", "02139"), ("country", "US")] ∧
    BillingResult.billingAddress
        [("city", "Cambridge"), ("stateOrProvince", "MA"),
         ("postalCode", "02139"), ("country", "US")] ≠ .empty := by
  constructor
  · simp [_get_shopper_billing_address, splitHouseStreet]
  · intro h
    cases h

/-- C10 (amended): for every input whose `billing_address` is non-empty
and cannot be split into a house number and a street (`splitHouseStreet`
yields nothing, which for a non-empty string happens exactly when it has
no space), the builder returns the completely empty mapping, discarding
city, state, postal code and country even when they are non-empty. -/
theorem c10_malformed_billing_address_empty
    (billing_address city state postal_code country : String)
    (hne : billing_address ≠ "")
    (hsplit : splitHouseStreet billing_address = none) :
    _get_shopper_billing_address billing_address city state postal_code country =
      .empty := by
  unfold _get_shopper_billing_address
  rw [if_pos (Or.inl hne)]
  simp [hne, hsplit]

/-- C10 witness: the amended theorem evaluated on the spaceless street
number `123` with every other field non-empty. -/
theorem c10_witness :
    _get_shopper_billing_address "123" "Cambridge" "MA" "02139" "US" = .empty :=
  c10_malformed_billing_address_empty "123" "Cambridge" "MA" "02139" "US"
    (by decide) rfl
